import Mathlib

/-!
# aiv: a shallow embedding of `aiv.c`

The viewer is one C translation unit: a decode session (`open_image`,
`next_frame`, `free_image`) over the media library, and `main`, whose nested
functions `load_image`, `load_frame` and `render` share the locals of `main`
and whose event loop dispatches on the X event's response type.

Modelling conventions.

* The locals of `main` that outlive one statement are the fields of
  `ViewerState`; `argc`/`argv` are the read-only `Args`.
* What the media library and the display server answer is input data: a
  `MediaFile` carries the return codes the library gives for that path and
  the packets of its container, a `Packet` the return codes of the calls
  made on it, an Expose event the geometry reply fetched while handling it.
* A computation is a `Run α`: the effects issued so far (requests to the
  display server, opening and closing of media inputs, lines on stderr) and
  how it ended: a value, `exit(status)`, an `assert` failure, or the
  dereference of a pointer that points at nothing.
* `int` variables are `Int`.  Pointer coordinates are 16-bit in the X
  protocol and the anchor is only ever assigned from them, so the
  subtractions of the motion handler cannot overflow, and `image_index` stays
  below `argc` (`event_loop_in_range`).  Effects record the arguments as
  written at the call site.
* The pointer `geometry` is declared without initialiser and assigned only by
  the Expose handler; it is `none` until then, and also when the reply is
  `NULL`.  `render` dereferences it first thing.
-/

namespace Aiv

/-! ## Effects and outcomes -/

/-- Geometry reply of the display server (`geometry->width`, `geometry->height`). -/
structure Geometry where
  width : Nat
  height : Nat
deriving DecidableEq, Repr

/-- Lines written to stderr, one constructor per `fprintf`/`vfprintf` site. -/
inductive Msg where
  | fatal
  | stream (stream_index : Int)
  | xcb_error
  | render_geometry (width height : Nat)
  | expose (x y width height : Nat)
  | p
  | r
  | next_image
  | key (detail : Nat)
  | unhandled (response_type : Nat)
deriving DecidableEq, Repr

/-- Observable effects, in program order. -/
inductive Effect where
  | stderr (m : Msg)
  | avformat_open_input
  | avformat_close_input
  | create_pixmap (pixmap : Nat) (width height : Int)
  | create_gc (gc pixmap : Nat)
  | put_image (pixmap gc : Nat) (width height : Int) (buf_size : Int)
      (buf : Option (List Nat))
  | get_geometry (window : Nat)
  | clear_area (exposures : Nat) (window : Nat) (x y : Int) (width height : Nat)
  | copy_area (src dst gc : Nat) (src_x src_y dst_x dst_y : Int) (width height : Int)
  | flush
deriving DecidableEq, Repr

/-- How a computation ends: it returns, the process exits, an `assert` fails, or
a pointer that holds no object is dereferenced (undefined behaviour, in
practice a crash). -/
inductive Outcome (α : Type) where
  | ok (a : α)
  | exit (status : Nat)
  | abort
  | undefined
deriving DecidableEq, Repr

/-- Effects issued, and the way the computation ended. -/
structure Run (α : Type) where
  trace : List Effect
  result : Outcome α
deriving DecidableEq, Repr

/-- Sequencing: the second computation runs only when the first returned. -/
def Run.bind {α β : Type} (m : Run α) (f : α → Run β) : Run β :=
  match m.result with
  | .ok a => ⟨m.trace ++ (f a).trace, (f a).result⟩
  | .exit n => ⟨m.trace, .exit n⟩
  | .abort => ⟨m.trace, .abort⟩
  | .undefined => ⟨m.trace, .undefined⟩

instance : Monad Run where
  pure a := ⟨[], .ok a⟩
  bind := Run.bind

/-- Issue one effect. -/
def emit (e : Effect) : Run Unit := ⟨[e], .ok ()⟩

/-- The C `assert`: abort when the condition is false. -/
def c_assert (c : Bool) : Run Unit :=
  if c then ⟨[], .ok ()⟩ else ⟨[], .abort⟩

/-- `enprintf(err, fmt, ...)`: return when `!(err < 0)`, else print and `exit(1)`. -/
def enprintf (err : Int) : Run Unit :=
  if ¬ (err < 0) then ⟨[], .ok ()⟩ else ⟨[.stderr .fatal], .exit 1⟩

/-- `eaprintf(err, fmt, ...)`: return when `!(err < 0)`, else print the message
and the library's error text and `exit(1)`. -/
def eaprintf (err : Int) : Run Unit :=
  if ¬ (err < 0) then ⟨[], .ok ()⟩ else ⟨[.stderr .fatal], .exit 1⟩

/-! ## Decode session -/

/-- `AVERROR(EAGAIN)`; value from the media library's headers. -/
def AVERROR_EAGAIN : Int := -11

/-- `AVERROR_EOF`; value from the media library's headers. -/
def AVERROR_EOF : Int := -541478725

/-- One packet of a container, with what the library answers for the calls
`next_frame` makes on it. -/
structure Packet where
  stream_index : Int
  send_ret : Int
  receive_ret : Int
  frame_width : Int
  frame_height : Int
  pixels : List Nat
  copy_ret : Int
deriving DecidableEq, Repr

/-- A path of `argv`, with what the library answers for the calls `open_image`
makes on it. -/
structure MediaFile where
  open_ret : Int
  stream_info_ret : Int
  best_stream_ret : Int
  alloc_context_ok : Bool
  parameters_ret : Int
  open2_ret : Int
  width : Int
  height : Int
  sws_ok : Bool
  image_alloc_ret : Int
  buffer_size_ret : Int
  packets : List Packet
deriving DecidableEq, Repr

/-- The struct `aiv_image_t`: `packets` is what `format_context` has left to
read, `width`/`height` are `codec_context->width/height`, `buf` is `none`
while the `malloc`ed block has not been written. -/
structure aiv_image_t where
  packets : List Packet
  stream_index : Int
  width : Int
  height : Int
  buf : Option (List Nat)
  buf_size : Int
deriving DecidableEq, Repr

/-- `open_image(filename, output_pixel_format, aiv_image)` (aiv.c 125-201); `file`
is what the library answers for `filename`.  Returns the `int` result and the
filled struct. -/
def open_image (file : MediaFile) : Run (Int × aiv_image_t) := do
  -- ret = avformat_open_input(...); eaprintf(ret, ...)
  emit .avformat_open_input
  let ret := file.open_ret
  eaprintf ret
  -- assert(avformat_find_stream_info(...) == 0)
  c_assert (file.stream_info_ret == 0)
  -- ret = av_find_best_stream(...); eaprintf(ret, ...); stream_index = ret
  let ret := file.best_stream_ret
  eaprintf ret
  let stream_index := ret
  -- codec_context = avcodec_alloc_context3(codec); assert(codec_context != NULL)
  c_assert file.alloc_context_ok
  -- ret = avcodec_parameters_to_context(...); eaprintf(ret, ...)
  let ret := file.parameters_ret
  eaprintf ret
  -- ret = avcodec_open2(...); eaprintf(ret, ...)
  let ret := file.open2_ret
  eaprintf ret
  -- fprintf(stderr, "stream[%i]: ...")
  emit (.stderr (.stream stream_index))
  -- sws_ctx = sws_getContext(...); assert(sws_ctx != NULL)
  c_assert file.sws_ok
  -- ret = av_image_alloc(...); eaprintf(ret, ...)
  let ret := file.image_alloc_ret
  eaprintf ret
  -- ret = av_image_get_buffer_size(...); eaprintf(ret, ...)
  let ret := file.buffer_size_ret
  eaprintf ret
  -- buf_size = ret; buf = malloc(buf_size); return 0
  pure (0, ⟨file.packets, stream_index, file.width, file.height, none, ret⟩)

/-- `free_image(aiv_image)` (aiv.c 203-216): closes the input with
`avformat_close_input` and releases the decoder, packet, frame, converter and
the two buffers. -/
def free_image ( _aiv_image : aiv_image_t) : Run Unit :=
  emit .avformat_close_input

/-- The `while (av_read_frame(...) >= 0)` loop of `next_frame` (aiv.c 230-279),
over the packets still to be read.  `av_read_frame` is negative exactly when
no packet is left.  The inner `while (ret >= 0)` is entered after `eaprintf`
let a non-negative `ret` through, and its body either breaks or returns. -/
def next_frame_loop (aiv_image : aiv_image_t) : List Packet → Run (Int × aiv_image_t)
  -- av_read_frame(...) < 0: the loop ends; return 0
  | [] => pure (0, { aiv_image with packets := [] })
  | packet :: rest =>
    -- if (packet->stream_index != aiv_image->stream_index) continue
    if packet.stream_index ≠ aiv_image.stream_index then
      next_frame_loop aiv_image rest
    else
      -- ret = avcodec_send_packet(...); eaprintf(ret, ...)
      (eaprintf packet.send_ret).bind fun _ =>
        -- ret = avcodec_receive_frame(...)
        let ret := packet.receive_ret
        -- if (ret == AVERROR(EAGAIN) || ret == AVERROR_EOF) break; then
        -- av_packet_unref(packet) and the next av_read_frame
        if ret = AVERROR_EAGAIN ∨ ret = AVERROR_EOF then
          next_frame_loop aiv_image rest
        else
          -- else eaprintf(ret, ...)
          (eaprintf ret).bind fun _ =>
          -- assert(frame->width == codec_context->width), same for height
          (c_assert (packet.frame_width == aiv_image.width)).bind fun _ =>
          (c_assert (packet.frame_height == aiv_image.height)).bind fun _ =>
          -- sws_scale(...); ret = av_image_copy_to_buffer(buf, ...); eaprintf(ret, ...)
          (eaprintf packet.copy_ret).bind fun _ =>
            -- return 0
            pure (0, { aiv_image with packets := rest, buf := some packet.pixels })

/-- `next_frame(aiv_image)` (aiv.c 218-280): the `int` result and the struct as
the call leaves it. -/
def next_frame (aiv_image : aiv_image_t) : Run (Int × aiv_image_t) :=
  next_frame_loop aiv_image aiv_image.packets

/-! ## Viewer session -/

/-- `argc` and `argv`: `argv i` is the file named by `argv[i]`. -/
structure Args where
  argc : Int
  argv : Int → MediaFile

/-- The locals of `main` shared by its nested functions and the event loop;
`geometry` is `none` while the pointer points at no reply. -/
structure ViewerState where
  window : Nat
  next_id : Nat
  aiv_image : aiv_image_t
  pixmap : Nat
  gc : Nat
  image_index : Int
  geometry : Option Geometry
  x : Int
  y : Int
  origin_x : Int
  origin_y : Int
  drag_state : Int
deriving DecidableEq, Repr

/-- The index update of the space key (aiv.c 470-472): `image_index++;
if (image_index == argc) image_index = 1;`. -/
def next_image_index (argc image_index : Int) : Int :=
  let image_index := image_index + 1
  if image_index = argc then 1 else image_index

/-- The nested function `load_image()` of `main` (aiv.c 334-347);
`xcb_generate_id` hands out `next_id`, `next_id + 1`, ... -/
def load_image (a : Args) (s : ViewerState) : Run ViewerState := do
  let (ret, aiv_image) ← open_image (a.argv s.image_index)
  enprintf ret
  let pixmap := s.next_id
  emit (.create_pixmap pixmap aiv_image.width aiv_image.height)
  let gc := s.next_id + 1
  emit (.create_gc gc pixmap)
  pure { s with aiv_image := aiv_image, pixmap := pixmap, gc := gc, next_id := s.next_id + 2 }

/-- The nested function `load_frame()` of `main` (aiv.c 360-380). -/
def load_frame (s : ViewerState) : Run ViewerState := do
  let (ret, aiv_image) ← next_frame s.aiv_image
  enprintf ret
  emit (.put_image s.pixmap s.gc aiv_image.width aiv_image.height
    aiv_image.buf_size aiv_image.buf)
  pure { s with aiv_image := aiv_image }

/-- The nested function `render(clear)` of `main` (aiv.c 382-400).  Its first
statement reads `geometry->width`, so it needs `geometry` to point at a
reply.  The second argument of `xcb_clear_area` is `clear`, then come the
window, the origin (0, 0) and the cached geometry. -/
def render (clear : Nat) (s : ViewerState) : Run Unit :=
  match s.geometry with
  | none => ⟨[], .undefined⟩
  | some geometry => do
    emit (.stderr (.render_geometry geometry.width geometry.height))
    emit (.clear_area clear s.window 0 0 geometry.width geometry.height)
    emit (.copy_area s.pixmap s.window s.gc 0 0 s.x s.y s.aiv_image.width s.aiv_image.height)

/-- Event code of KeyPress in the X core protocol. -/
def XCB_KEY_PRESS : Nat := 2

/-- Event code of ButtonPress in the X core protocol. -/
def XCB_BUTTON_PRESS : Nat := 4

/-- Event code of ButtonRelease in the X core protocol. -/
def XCB_BUTTON_RELEASE : Nat := 5

/-- Event code of MotionNotify in the X core protocol. -/
def XCB_MOTION_NOTIFY : Nat := 6

/-- Event code of Expose in the X core protocol. -/
def XCB_EXPOSE : Nat := 12

/-- An event as the loop reads it: the response type, the fields the handlers
read from the event viewed as its specific type, and, for an Expose, what
`xcb_get_geometry_reply` returns while handling it (`none` for `NULL`). -/
structure xcb_generic_event_t where
  response_type : Nat
  detail : Nat
  event_x : Int
  event_y : Int
  x : Nat
  y : Nat
  width : Nat
  height : Nat
  reply : Option Geometry
deriving DecidableEq, Repr

/-- The `switch (event->response_type & ~0x80)` of the event loop (aiv.c 413-489);
clearing bit 7 of the 8-bit response type is the remainder modulo 128. -/
def dispatch (a : Args) (s : ViewerState) (event : xcb_generic_event_t) : Run ViewerState :=
  let code := event.response_type % 128
  if code = 0 then do
    emit (.stderr .xcb_error)
    pure s
  else if code = XCB_EXPOSE then do
    emit (.stderr (.expose event.x event.y event.width event.height))
    emit (.get_geometry s.window)
    let s := { s with geometry := event.reply }
    render 0 s
    pure s
  else if code = XCB_BUTTON_PRESS then do
    emit (.stderr .p)
    pure { s with origin_x := event.event_x, origin_y := event.event_y, drag_state := 1 }
  else if code = XCB_BUTTON_RELEASE then do
    emit (.stderr .r)
    pure { s with origin_x := event.event_x, origin_y := event.event_y, drag_state := 0 }
  else if code = XCB_MOTION_NOTIFY then
    if s.drag_state = 1
        ∧ s.x ≠ event.event_x - s.origin_x
        ∧ s.y ≠ event.event_y - s.origin_y then do
      let s := { s with x := event.event_x - s.origin_x, y := event.event_y - s.origin_y }
      render 1 s
      pure s
    else
      pure s
  else if code = XCB_KEY_PRESS then
    if event.detail = 65 then do
      let s := { s with image_index := next_image_index a.argc s.image_index }
      let s ← load_image a s
      let s ← load_frame s
      render 1 s
      emit (.stderr .next_image)
      pure s
    else do
      emit (.stderr (.key event.detail))
      pure s
  else do
    emit (.stderr (.unhandled event.response_type))
    pure s

/-- One iteration of the event loop (aiv.c 412-492): the switch, then
`free(event)` and `xcb_flush(connection)`. -/
def handle_event (a : Args) (s : ViewerState) (event : xcb_generic_event_t) :
    Run ViewerState := do
  let s ← dispatch a s event
  emit .flush
  pure s

/-- The `while ((event = xcb_wait_for_event(connection)))` loop over the events
delivered before the connection ends. -/
def event_loop (a : Args) (s : ViewerState) : List xcb_generic_event_t → Run ViewerState
  | [] => pure s
  | event :: rest => (handle_event a s event).bind fun s => event_loop a s rest

/-- The locals of `main` before the first `load_image()` (aiv.c 326-358):
`window` is the first generated id, `image_index = 1`, the pan offset and the
anchor are 0 with no drag, and `geometry` points at nothing. -/
def boot (first_id : Nat) : ViewerState :=
  { window := first_id, next_id := first_id + 1,
    aiv_image := ⟨[], 0, 0, 0, none, 0⟩, pixmap := 0, gc := 0,
    image_index := 1, geometry := none,
    x := 0, y := 0, origin_x := 0, origin_y := 0, drag_state := 0 }

/-- The statements of `main` from `load_image(); load_frame();` to the event
loop (aiv.c 404-410): `errors_ret` is what `xcb_errors_context_new` returns. -/
def main_init (a : Args) (first_id : Nat) (errors_ret : Int) : Run ViewerState := do
  let s ← load_image a (boot first_id)
  let s ← load_frame s
  enprintf errors_ret
  pure s

/-- The function `main` from the first `load_image()` on: initialisation, event
loop, `xcb_disconnect`, `return 0`.  Of the connection and window set-up
before it (aiv.c 297-322) only the id generated for `window` reaches the
locals modelled here. -/
def main (a : Args) (first_id : Nat) (errors_ret : Int)
    (events : List xcb_generic_event_t) : Run Int := do
  let s ← main_init a first_id errors_ret
  let _ ← event_loop a s events
  pure 0

/-! ## Vocabulary of the statements -/

/-- Redraw commands: the clear and the copy issued by `render`. -/
def is_redraw : Effect → Bool
  | .clear_area _ _ _ _ _ _ => true
  | .copy_area _ _ _ _ _ _ _ _ _ => true
  | _ => false

/-- Creation of the off-screen surface or of its draw context. -/
def creates_surface : Effect → Bool
  | .create_pixmap _ _ _ => true
  | .create_gc _ _ => true
  | _ => false

/-- Effects that are neither a line on stderr nor the flush that ends an iteration. -/
def is_request : Effect → Bool
  | .stderr _ => false
  | .flush => false
  | _ => true

/-- A ButtonPress event at pointer position `(x, y)`. -/
def button_press (x y : Int) : xcb_generic_event_t :=
  ⟨XCB_BUTTON_PRESS, 1, x, y, 0, 0, 0, 0, none⟩

/-- A ButtonRelease event at pointer position `(x, y)`. -/
def button_release (x y : Int) : xcb_generic_event_t :=
  ⟨XCB_BUTTON_RELEASE, 1, x, y, 0, 0, 0, 0, none⟩

/-- A MotionNotify event at pointer position `(x, y)`. -/
def motion_notify (x y : Int) : xcb_generic_event_t :=
  ⟨XCB_MOTION_NOTIFY, 0, x, y, 0, 0, 0, 0, none⟩

/-- A KeyPress event with key code `detail`. -/
def key_press (detail : Nat) : xcb_generic_event_t :=
  ⟨XCB_KEY_PRESS, detail, 0, 0, 0, 0, 0, 0, none⟩

/-- An Expose event for the whole of a `width` x `height` window, answered by a
geometry reply of that size. -/
def expose (width height : Nat) : xcb_generic_event_t :=
  ⟨XCB_EXPOSE, 0, 0, 0, 0, 0, width, height, some ⟨width, height⟩⟩

/-! ## Sample inputs -/

/-- A 4x3 file with one video packet that decodes to one frame. -/
def sample_file : MediaFile :=
  { open_ret := 0, stream_info_ret := 0, best_stream_ret := 0, alloc_context_ok := true,
    parameters_ret := 0, open2_ret := 0, width := 4, height := 3, sws_ok := true,
    image_alloc_ret := 48, buffer_size_ret := 48,
    packets := [⟨0, 0, 0, 4, 3, [255, 0, 0, 255], 48⟩] }

/-- A file whose container opens but has no video stream. -/
def sample_no_stream : MediaFile :=
  { sample_file with best_stream_ret := -1381258232, packets := [] }

/-- The command line `aiv a b`: `argc = 3`, both files as `sample_file`. -/
def sample_args : Args := ⟨3, fun _ => sample_file⟩

/-- The command line `aiv a`, where `a` has no video stream. -/
def sample_bad_args : Args := ⟨2, fun _ => sample_no_stream⟩

/-- The decode session of `sample_file` right after `open_image`. -/
def sample_session : aiv_image_t := ⟨sample_file.packets, 0, 4, 3, none, 48⟩

/-- The decode session of `sample_file` after its only frame was decoded. -/
def sample_session_done : aiv_image_t := ⟨[], 0, 4, 3, some [255, 0, 0, 255], 48⟩

/-- The state `main` enters the event loop with on `sample_args`, window id 7:
no Expose has been handled yet. -/
def sample_entry : ViewerState :=
  { window := 7, next_id := 10, aiv_image := sample_session_done, pixmap := 8, gc := 9,
    image_index := 1, geometry := none,
    x := 0, y := 0, origin_x := 0, origin_y := 0, drag_state := 0 }

/-- The state `sample_entry` after the first Expose, of a 150x150 window. -/
def sample_state : ViewerState :=
  { sample_entry with geometry := some ⟨150, 150⟩ }

/-- The state `sample_state` with a drag in progress, anchored at (10, 10). -/
def sample_dragging : ViewerState :=
  { sample_state with origin_x := 10, origin_y := 10, drag_state := 1 }

/-! ## Predicates on runs and states -/

/-- The computation issues no `avformat_close_input`. -/
def never_closes {α : Type} (m : Run α) : Prop := Effect.avformat_close_input ∉ m.trace

instance {α : Type} (m : Run α) : Decidable (never_closes m) := by
  unfold never_closes
  infer_instance

/-- A value of the 16-bit signed fields `event_x`, `event_y` of pointer events. -/
def is_int16 (v : Int) : Prop := -32768 ≤ v ∧ v ≤ 32767

instance (v : Int) : Decidable (is_int16 v) := by
  unfold is_int16
  infer_instance

/-- Ranges of the `int` locals of `main`: the anchor holds 16-bit values, the pan
offset a difference of two of them, the file index a position in `argv`. -/
def in_range (a : Args) (s : ViewerState) : Prop :=
  is_int16 s.origin_x ∧ is_int16 s.origin_y
  ∧ (-65535 ≤ s.x ∧ s.x ≤ 65535) ∧ (-65535 ≤ s.y ∧ s.y ≤ 65535)
  ∧ (1 ≤ s.image_index ∧ s.image_index ≤ a.argc - 1)

instance (a : Args) (s : ViewerState) : Decidable (in_range a s) := by
  unfold in_range
  infer_instance

/-! ## Sequencing lemmas -/

theorem bind_eq {α β : Type} (m : Run α) (f : α → Run β) : (m >>= f) = m.bind f := rfl

theorem pure_eq {α : Type} (a : α) : (pure a : Run α) = ⟨[], .ok a⟩ := rfl

theorem bind_ok {α β : Type} (t : List Effect) (a : α) (f : α → Run β) :
    Run.bind ⟨t, .ok a⟩ f = ⟨t ++ (f a).trace, (f a).result⟩ := rfl

theorem pure_bind_eq {α β : Type} (a : α) (f : α → Run β) : (pure a : Run α).bind f = f a := by
  simp [pure_eq, Run.bind]

theorem bind_bind {α β γ : Type} (m : Run α) (f : α → Run β) (g : β → Run γ) :
    (m.bind f).bind g = m.bind fun a => (f a).bind g := by
  rcases m with ⟨t, (a | n | _ | _)⟩
  · simp only [Run.bind]
    cases h : (f a).result <;> simp [h]
  · simp [Run.bind]
  · simp [Run.bind]
  · simp [Run.bind]

theorem bind_result_ok {α β : Type} (m : Run α) (f : α → Run β) (b : β)
    (h : (m.bind f).result = .ok b) : ∃ a, m.result = .ok a ∧ (f a).result = .ok b := by
  rcases m with ⟨t, (a | n | _ | _)⟩
  · exact ⟨a, rfl, h⟩
  · simp [Run.bind] at h
  · simp [Run.bind] at h
  · simp [Run.bind] at h

theorem event_loop_append (a : Args) (l₁ l₂ : List xcb_generic_event_t) (s : ViewerState) :
    event_loop a s (l₁ ++ l₂) = (event_loop a s l₁).bind fun s' => event_loop a s' l₂ := by
  induction l₁ generalizing s with
  | nil => simp [event_loop, pure_eq, Run.bind]
  | cons e l ih =>
    simp only [List.cons_append, event_loop, bind_bind]
    congr 1
    funext s'
    exact ih s'

/-! ## The handlers, one event kind at a time -/

theorem handle_error (a : Args) (s : ViewerState) (e : xcb_generic_event_t)
    (h : e.response_type % 128 = 0) :
    handle_event a s e = ⟨[.stderr .xcb_error, .flush], .ok s⟩ := by
  simp [handle_event, dispatch, h, bind, Run.bind, emit, pure]

theorem handle_press (a : Args) (s : ViewerState) (e : xcb_generic_event_t)
    (h : e.response_type % 128 = XCB_BUTTON_PRESS) :
    handle_event a s e = ⟨[.stderr .p, .flush],
      .ok { s with origin_x := e.event_x, origin_y := e.event_y, drag_state := 1 }⟩ := by
  simp [handle_event, dispatch, h, XCB_EXPOSE, XCB_BUTTON_PRESS, bind, Run.bind, emit, pure]

theorem handle_release (a : Args) (s : ViewerState) (e : xcb_generic_event_t)
    (h : e.response_type % 128 = XCB_BUTTON_RELEASE) :
    handle_event a s e = ⟨[.stderr .r, .flush],
      .ok { s with origin_x := e.event_x, origin_y := e.event_y, drag_state := 0 }⟩ := by
  simp [handle_event, dispatch, h, XCB_EXPOSE, XCB_BUTTON_PRESS, XCB_BUTTON_RELEASE,
    bind, Run.bind, emit, pure]

theorem handle_expose (a : Args) (s : ViewerState) (e : xcb_generic_event_t) (g : Geometry)
    (h : e.response_type % 128 = XCB_EXPOSE) (reply : e.reply = some g) :
    handle_event a s e =
      ⟨[.stderr (.expose e.x e.y e.width e.height), .get_geometry s.window,
        .stderr (.render_geometry g.width g.height),
        .clear_area 0 s.window 0 0 g.width g.height,
        .copy_area s.pixmap s.window s.gc 0 0 s.x s.y s.aiv_image.width s.aiv_image.height,
        .flush],
       .ok { s with geometry := some g }⟩ := by
  simp [handle_event, dispatch, h, reply, XCB_EXPOSE, bind, Run.bind, emit, pure, render]

theorem handle_motion_skip (a : Args) (s : ViewerState) (e : xcb_generic_event_t)
    (h : e.response_type % 128 = XCB_MOTION_NOTIFY)
    (g : ¬ (s.drag_state = 1 ∧ s.x ≠ e.event_x - s.origin_x ∧ s.y ≠ e.event_y - s.origin_y)) :
    handle_event a s e = ⟨[.flush], .ok s⟩ := by
  simp [handle_event, dispatch, h, XCB_EXPOSE, XCB_BUTTON_PRESS, XCB_BUTTON_RELEASE,
    XCB_MOTION_NOTIFY, if_neg g, bind, Run.bind, emit, pure]

theorem handle_motion_draw (a : Args) (s : ViewerState) (e : xcb_generic_event_t)
    (geometry : Geometry) (h : e.response_type % 128 = XCB_MOTION_NOTIFY)
    (g : s.drag_state = 1 ∧ s.x ≠ e.event_x - s.origin_x ∧ s.y ≠ e.event_y - s.origin_y)
    (fetched : s.geometry = some geometry) :
    handle_event a s e =
      ⟨[.stderr (.render_geometry geometry.width geometry.height),
        .clear_area 1 s.window 0 0 geometry.width geometry.height,
        .copy_area s.pixmap s.window s.gc 0 0 (e.event_x - s.origin_x)
          (e.event_y - s.origin_y) s.aiv_image.width s.aiv_image.height,
        .flush],
       .ok { s with x := e.event_x - s.origin_x, y := e.event_y - s.origin_y }⟩ := by
  simp [handle_event, dispatch, h, XCB_EXPOSE, XCB_BUTTON_PRESS, XCB_BUTTON_RELEASE,
    XCB_MOTION_NOTIFY, if_pos g, fetched, bind, Run.bind, emit, pure, render]

theorem handle_motion_undefined (a : Args) (s : ViewerState) (e : xcb_generic_event_t)
    (h : e.response_type % 128 = XCB_MOTION_NOTIFY)
    (g : s.drag_state = 1 ∧ s.x ≠ e.event_x - s.origin_x ∧ s.y ≠ e.event_y - s.origin_y)
    (unset : s.geometry = none) :
    handle_event a s e = ⟨[], .undefined⟩ := by
  simp [handle_event, dispatch, h, XCB_EXPOSE, XCB_BUTTON_PRESS, XCB_BUTTON_RELEASE,
    XCB_MOTION_NOTIFY, if_pos g, unset, bind, Run.bind, emit, pure, render]

theorem handle_key_other (a : Args) (s : ViewerState) (e : xcb_generic_event_t)
    (h : e.response_type % 128 = XCB_KEY_PRESS) (d : e.detail ≠ 65) :
    handle_event a s e = ⟨[.stderr (.key e.detail), .flush], .ok s⟩ := by
  simp [handle_event, dispatch, h, d, XCB_EXPOSE, XCB_BUTTON_PRESS, XCB_BUTTON_RELEASE,
      XCB_MOTION_NOTIFY, XCB_KEY_PRESS, bind, Run.bind, emit, pure]

theorem load_image_ok (a : Args) (s s' : ViewerState)
    (h : (load_image a s).result = .ok s') :
    ∃ img, s' = { s with aiv_image := img, pixmap := s.next_id, gc := s.next_id + 1,
                          next_id := s.next_id + 2 } := by
  unfold load_image at h
  simp only [bind_eq] at h
  obtain ⟨⟨ret, img⟩, -, h⟩ := bind_result_ok _ _ _ h
  obtain ⟨_, -, h⟩ := bind_result_ok _ _ _ h
  refine ⟨img, ?_⟩
  simpa [Run.bind, emit, pure_eq, eq_comm] using h

theorem load_frame_ok (s s' : ViewerState) (h : (load_frame s).result = .ok s') :
    ∃ img, s' = { s with aiv_image := img } := by
  unfold load_frame at h
  simp only [bind_eq] at h
  obtain ⟨⟨ret, img⟩, -, h⟩ := bind_result_ok _ _ _ h
  obtain ⟨_, -, h⟩ := bind_result_ok _ _ _ h
  refine ⟨img, ?_⟩
  simpa [Run.bind, emit, pure_eq, eq_comm] using h

theorem main_init_ok (a : Args) (first_id : Nat) (errors_ret : Int) (s₀ : ViewerState)
    (h : (main_init a first_id errors_ret).result = .ok s₀) :
    s₀.x = 0 ∧ s₀.y = 0 ∧ s₀.origin_x = 0 ∧ s₀.origin_y = 0 ∧ s₀.drag_state = 0
      ∧ s₀.image_index = 1 ∧ s₀.geometry = none := by
  unfold main_init at h
  simp only [bind_eq] at h
  obtain ⟨s₁, h₁, h⟩ := bind_result_ok _ _ _ h
  obtain ⟨s₂, h₂, h⟩ := bind_result_ok _ _ _ h
  obtain ⟨_, -, h⟩ := bind_result_ok _ _ _ h
  obtain ⟨i₁, rfl⟩ := load_image_ok _ _ _ h₁
  obtain ⟨i₂, rfl⟩ := load_frame_ok _ _ h₂
  simp only [pure_eq, Outcome.ok.injEq] at h
  subst h
  simp [boot]

/-! ## The `int` locals stay in range -/

theorem dispatch_fields (a : Args) (s s' : ViewerState) (e : xcb_generic_event_t)
    (r : (dispatch a s e).result = .ok s') :
    (s'.origin_x = s.origin_x ∨ s'.origin_x = e.event_x)
    ∧ (s'.origin_y = s.origin_y ∨ s'.origin_y = e.event_y)
    ∧ (s'.x = s.x ∨ s'.x = e.event_x - s.origin_x)
    ∧ (s'.y = s.y ∨ s'.y = e.event_y - s.origin_y)
    ∧ (s'.image_index = s.image_index
        ∨ s'.image_index = next_image_index a.argc s.image_index) := by
  unfold dispatch at r
  simp only [bind_eq] at r
  split at r
  · repeat (obtain ⟨_, -, r⟩ := bind_result_ok _ _ _ r)
    simp only [pure_eq, Outcome.ok.injEq] at r
    simp [← r]
  split at r
  · repeat (obtain ⟨_, -, r⟩ := bind_result_ok _ _ _ r)
    simp only [pure_eq, Outcome.ok.injEq] at r
    simp [← r]
  split at r
  · repeat (obtain ⟨_, -, r⟩ := bind_result_ok _ _ _ r)
    simp only [pure_eq, Outcome.ok.injEq] at r
    simp [← r]
  split at r
  · repeat (obtain ⟨_, -, r⟩ := bind_result_ok _ _ _ r)
    simp only [pure_eq, Outcome.ok.injEq] at r
    simp [← r]
  split at r
  · split at r
    · repeat (obtain ⟨_, -, r⟩ := bind_result_ok _ _ _ r)
      simp only [pure_eq, Outcome.ok.injEq] at r
      simp [← r]
    · simp only [pure_eq, Outcome.ok.injEq] at r
      simp [← r]
  split at r
  · split at r
    · obtain ⟨s₁, h₁, r⟩ := bind_result_ok _ _ _ r
      obtain ⟨s₂, h₂, r⟩ := bind_result_ok _ _ _ r
      obtain ⟨i₁, rfl⟩ := load_image_ok _ _ _ h₁
      obtain ⟨i₂, rfl⟩ := load_frame_ok _ _ h₂
      repeat (obtain ⟨_, -, r⟩ := bind_result_ok _ _ _ r)
      simp only [pure_eq, Outcome.ok.injEq] at r
      simp [← r]
    · repeat (obtain ⟨_, -, r⟩ := bind_result_ok _ _ _ r)
      simp only [pure_eq, Outcome.ok.injEq] at r
      simp [← r]
  · repeat (obtain ⟨_, -, r⟩ := bind_result_ok _ _ _ r)
    simp only [pure_eq, Outcome.ok.injEq] at r
    simp [← r]

theorem handle_event_in_range (a : Args) (s s' : ViewerState) (e : xcb_generic_event_t)
    (files : 2 ≤ a.argc) (inv : in_range a s)
    (ex : is_int16 e.event_x) (ey : is_int16 e.event_y)
    (r : (handle_event a s e).result = .ok s') : in_range a s' := by
  unfold handle_event at r
  simp only [bind_eq] at r
  obtain ⟨s₁, h₁, r⟩ := bind_result_ok _ _ _ r
  simp [Run.bind, emit, pure_eq] at r
  subst r
  obtain ⟨ox, oy, hx, hy, hi⟩ := dispatch_fields a s s₁ e h₁
  unfold in_range is_int16 at *
  unfold next_image_index at hi
  simp only at hi
  split at hi <;> omega

theorem main_init_in_range (a : Args) (first_id : Nat) (errors_ret : Int) (s₀ : ViewerState)
    (files : 2 ≤ a.argc) (h : (main_init a first_id errors_ret).result = .ok s₀) :
    in_range a s₀ := by
  obtain ⟨hx, hy, ox, oy, -, hi, -⟩ := main_init_ok a first_id errors_ret s₀ h
  unfold in_range is_int16
  omega

/-- Every state the event loop reaches keeps the `int` locals in range when the
pointer coordinates of the events are 16-bit: no subtraction of the motion
handler and no increment of the file index leaves the range of `int`. -/
theorem event_loop_in_range (a : Args) (events : List xcb_generic_event_t)
    (s s' : ViewerState) (files : 2 ≤ a.argc) (inv : in_range a s)
    (coords : ∀ e ∈ events, is_int16 e.event_x ∧ is_int16 e.event_y)
    (r : (event_loop a s events).result = .ok s') : in_range a s' := by
  induction events generalizing s with
  | nil =>
    simp [event_loop, pure_eq] at r
    rw [← r]; exact inv
  | cons e rest ih =>
    rw [event_loop] at r
    obtain ⟨s₁, h₁, r⟩ := bind_result_ok _ _ _ r
    have c := coords e (List.mem_cons_self _ _)
    exact ih s₁ (handle_event_in_range a s s₁ e files inv c.1 c.2 h₁)
      (fun e' he' => coords e' (List.mem_cons_of_mem _ he')) r

/-! ## Cycling through the files -/

theorem next_image_index_lt (argc i : Int) (k : Nat) (h : i + k ≤ argc - 1) :
    (next_image_index argc)^[k] i = i + k := by
  induction k with
  | zero => simp
  | succ n ih =>
    rw [Function.iterate_succ_apply', ih (by push_cast at h; omega)]
    unfold next_image_index
    simp only
    rw [if_neg (by push_cast at h; omega)]
    push_cast; ring

theorem next_image_index_last (argc : Int) : next_image_index argc (argc - 1) = 1 := by
  simp [next_image_index]

theorem next_image_index_cycle (argc i : Int) (h1 : 1 ≤ i) (h2 : i ≤ argc - 1) :
    (next_image_index argc)^[(argc - 1).toNat] i = i := by
  have e : (argc - 1).toNat = (i - 1).toNat + (1 + (argc - 1 - i).toNat) := by omega
  rw [e, Function.iterate_add_apply, Function.iterate_add_apply,
    next_image_index_lt argc i _ (by omega)]
  have e2 : i + ((argc - 1 - i).toNat : Int) = argc - 1 := by omega
  rw [e2, Function.iterate_one, next_image_index_last,
    next_image_index_lt argc 1 _ (by omega)]
  omega

theorem handle_key_next (a : Args) (s s' : ViewerState) (e : xcb_generic_event_t)
    (h : e.response_type % 128 = XCB_KEY_PRESS) (d : e.detail = 65)
    (r : (handle_event a s e).result = .ok s') :
    s'.image_index = next_image_index a.argc s.image_index := by
  simp only [handle_event, dispatch, h, d, XCB_EXPOSE, XCB_BUTTON_PRESS, XCB_BUTTON_RELEASE,
      XCB_MOTION_NOTIFY, XCB_KEY_PRESS, bind_eq] at r
  simp only [show ¬ ((2 : Nat) = 0) by decide, show ¬ ((2 : Nat) = 12) by decide,
    show ¬ ((2 : Nat) = 4) by decide, show ¬ ((2 : Nat) = 5) by decide,
    show ¬ ((2 : Nat) = 6) by decide, if_true, if_false, bind_bind, pure_bind_eq] at r
  obtain ⟨s₁, h₁, r⟩ := bind_result_ok _ _ _ r
  obtain ⟨s₂, h₂, r⟩ := bind_result_ok _ _ _ r
  obtain ⟨i₁, rfl⟩ := load_image_ok _ _ _ h₁
  obtain ⟨i₂, rfl⟩ := load_frame_ok _ _ h₂
  repeat (obtain ⟨_, -, r⟩ := bind_result_ok _ _ _ r)
  simp only [pure_eq, Outcome.ok.injEq] at r
  rw [← r]

theorem next_presses (a : Args) (k : Nat) (s s' : ViewerState)
    (r : (event_loop a s (List.replicate k (key_press 65))).result = .ok s') :
    s'.image_index = (next_image_index a.argc)^[k] s.image_index := by
  induction k generalizing s with
  | zero =>
    simp [event_loop, pure_eq] at r
    simp [r]
  | succ n ih =>
    rw [List.replicate_succ, event_loop] at r
    obtain ⟨s₁, h₁, r⟩ := bind_result_ok _ _ _ r
    rw [Function.iterate_succ_apply, ← handle_key_next a s s₁ (key_press 65) rfl rfl h₁]
    exact ih s₁ r

/-- C1: with `argc >= 2` and a current index `i` in `1..argc-1`, the index update
of the space key applied `argc - 1` times gives `i` again; started on the
first file it returns to the first file; and an event loop that handles
`argc - 1` space presses ends on the index it started with. -/
theorem C1_next_cycles_back (a : Args) (i : Int)
    (files : 2 ≤ a.argc) (lo : 1 ≤ i) (hi : i ≤ a.argc - 1) :
    (next_image_index a.argc)^[(a.argc - 1).toNat] i = i
    ∧ (next_image_index a.argc)^[(a.argc - 1).toNat] 1 = 1
    ∧ ∀ s s', s.image_index = i →
        (event_loop a s (List.replicate (a.argc - 1).toNat (key_press 65))).result = .ok s' →
        s'.image_index = i := by
  refine ⟨next_image_index_cycle _ i lo hi, next_image_index_cycle _ 1 (by omega) (by omega), ?_⟩
  intro s s' hs r
  rw [next_presses a _ s s' r, hs]
  exact next_image_index_cycle _ i lo hi

theorem C1_next_cycles_back_witness :
    (2 : Int) ≤ sample_args.argc ∧ (1 : Int) ≤ 2 ∧ (2 : Int) ≤ sample_args.argc - 1
    ∧ (next_image_index sample_args.argc)^[(sample_args.argc - 1).toNat] 2 = 2 :=
  ⟨by decide, by decide, by decide,
    (C1_next_cycles_back sample_args 2 (by decide) (by decide) (by decide)).1⟩

/-! ## The drag state machine -/

/-- C8: in an Idle state a ButtonPress at `(x, y)` starts a drag anchored at
`(x, y)`; in a Dragging state a ButtonRelease at `(x, y)` ends it and stores
`(x, y)` as anchor; both leave the pan offset and the file index as they were
and issue neither a clear nor a copy. -/
theorem C8_press_release (a : Args) (s₁ s₂ : ViewerState) (e₁ e₂ : xcb_generic_event_t)
    (idle : s₁.drag_state = 0) (press : e₁.response_type % 128 = XCB_BUTTON_PRESS)
    (dragging : s₂.drag_state = 1) (release : e₂.response_type % 128 = XCB_BUTTON_RELEASE) :
    (∃ t s', handle_event a s₁ e₁ = ⟨t, .ok s'⟩
        ∧ s'.drag_state = 1 ∧ s'.origin_x = e₁.event_x ∧ s'.origin_y = e₁.event_y
        ∧ s'.x = s₁.x ∧ s'.y = s₁.y ∧ s'.image_index = s₁.image_index
        ∧ ∀ eff ∈ t, is_redraw eff = false)
    ∧ (∃ t s', handle_event a s₂ e₂ = ⟨t, .ok s'⟩
        ∧ s'.drag_state = 0 ∧ s'.origin_x = e₂.event_x ∧ s'.origin_y = e₂.event_y
        ∧ s'.x = s₂.x ∧ s'.y = s₂.y ∧ s'.image_index = s₂.image_index
        ∧ ∀ eff ∈ t, is_redraw eff = false) := by
  constructor
  · exact ⟨_, _, handle_press a s₁ e₁ press, rfl, rfl, rfl, rfl, rfl, rfl, by simp [is_redraw]⟩
  · exact ⟨_, _, handle_release a s₂ e₂ release, rfl, rfl, rfl, rfl, rfl, rfl,
      by simp [is_redraw]⟩

theorem C8_press_release_witness :
    sample_state.drag_state = 0
    ∧ (button_press 10 10).response_type % 128 = XCB_BUTTON_PRESS
    ∧ sample_dragging.drag_state = 1
    ∧ (button_release 40 30).response_type % 128 = XCB_BUTTON_RELEASE
    ∧ ∃ t s', handle_event sample_args sample_state (button_press 10 10) = ⟨t, .ok s'⟩
        ∧ s'.drag_state = 1 ∧ s'.origin_x = 10 ∧ s'.origin_y = 10 :=
  ⟨rfl, rfl, rfl, rfl,
    match (C8_press_release sample_args sample_state sample_dragging (button_press 10 10)
      (button_release 40 30) rfl rfl rfl rfl).1 with
    | ⟨t, s', h, d, ox, oy, _⟩ => ⟨t, s', h, d, ox, oy⟩⟩

/-- C5: in a Dragging state, a MotionNotify whose new offset differs from the
pan offset in exactly one axis issues neither a clear nor a copy, and the
controller stays Dragging with the same anchor (the whole state is unchanged). -/
theorem C5_one_axis_motion_no_redraw (a : Args) (s : ViewerState) (e : xcb_generic_event_t)
    (dragging : s.drag_state = 1) (motion : e.response_type % 128 = XCB_MOTION_NOTIFY)
    (one_axis : (s.x ≠ e.event_x - s.origin_x ∧ s.y = e.event_y - s.origin_y)
      ∨ (s.x = e.event_x - s.origin_x ∧ s.y ≠ e.event_y - s.origin_y)) :
    ∃ t s', handle_event a s e = ⟨t, .ok s'⟩
      ∧ (∀ eff ∈ t, is_redraw eff = false)
      ∧ s'.drag_state = 1 ∧ s'.origin_x = s.origin_x ∧ s'.origin_y = s.origin_y
      ∧ s' = s := by
  refine ⟨[.flush], s, ?_, by simp [is_redraw], dragging, rfl, rfl, rfl⟩
  apply handle_motion_skip a s e motion
  rcases one_axis with ⟨_, h⟩ | ⟨h, _⟩ <;> simp [h]

theorem C5_one_axis_motion_no_redraw_witness :
    sample_dragging.drag_state = 1
    ∧ (motion_notify 40 10).response_type % 128 = XCB_MOTION_NOTIFY
    ∧ ((sample_dragging.x ≠ (motion_notify 40 10).event_x - sample_dragging.origin_x
          ∧ sample_dragging.y = (motion_notify 40 10).event_y - sample_dragging.origin_y)
        ∨ (sample_dragging.x = (motion_notify 40 10).event_x - sample_dragging.origin_x
          ∧ sample_dragging.y ≠ (motion_notify 40 10).event_y - sample_dragging.origin_y))
    ∧ ∃ t s', handle_event sample_args sample_dragging (motion_notify 40 10) = ⟨t, .ok s'⟩
      ∧ (∀ eff ∈ t, is_redraw eff = false)
      ∧ s'.drag_state = 1 ∧ s'.origin_x = sample_dragging.origin_x
      ∧ s'.origin_y = sample_dragging.origin_y ∧ s' = sample_dragging :=
  ⟨rfl, rfl, Or.inl ⟨by decide, by decide⟩,
    C5_one_axis_motion_no_redraw sample_args sample_dragging (motion_notify 40 10) rfl rfl
      (Or.inl ⟨by decide, by decide⟩)⟩

theorem motions_keep_drag (a : Args) (ax ay : Int) (g : Geometry) (ms : List (Int × Int))
    (s : ViewerState) (d : s.drag_state = 1) (hx : s.origin_x = ax) (hy : s.origin_y = ay)
    (fetched : s.geometry = some g) :
    ∃ s', (event_loop a s (ms.map fun m => motion_notify m.1 m.2)).result = .ok s'
      ∧ s'.drag_state = 1 ∧ s'.origin_x = ax ∧ s'.origin_y = ay ∧ s'.geometry = some g
      ∧ ((s'.x, s'.y) = (s.x, s.y) ∨ ∃ m ∈ ms, (s'.x, s'.y) = (m.1 - ax, m.2 - ay)) := by
  induction ms generalizing s with
  | nil => exact ⟨s, rfl, d, hx, hy, fetched, Or.inl rfl⟩
  | cons m ms ih =>
    rw [List.map_cons, event_loop]
    by_cases gate : s.drag_state = 1 ∧ s.x ≠ (motion_notify m.1 m.2).event_x - s.origin_x
        ∧ s.y ≠ (motion_notify m.1 m.2).event_y - s.origin_y
    · rw [handle_motion_draw a s (motion_notify m.1 m.2) g rfl gate fetched, bind_ok]
      obtain ⟨s', r, d', hx', hy', f', h⟩ := ih
        { s with x := (motion_notify m.1 m.2).event_x - s.origin_x,
                 y := (motion_notify m.1 m.2).event_y - s.origin_y } d hx hy fetched
      refine ⟨s', r, d', hx', hy', f', Or.inr ?_⟩
      rcases h with h | ⟨m', hm, h⟩
      · exact ⟨m, List.mem_cons_self _ _, by rw [h, ← hx, ← hy]; rfl⟩
      · exact ⟨m', List.mem_cons_of_mem _ hm, h⟩
    · rw [handle_motion_skip a s (motion_notify m.1 m.2) rfl gate, bind_ok]
      obtain ⟨s', r, d', hx', hy', f', h⟩ := ih s d hx hy fetched
      refine ⟨s', r, d', hx', hy', f', ?_⟩
      rcases h with h | ⟨m', hm, h⟩
      · exact Or.inl h
      · exact Or.inr ⟨m', List.mem_cons_of_mem _ hm, h⟩

/-- C3, as stated, fails, in two ways.  From the Idle state with pan offset (0, 0)
and the geometry fetched, the drag ButtonPress(10,10), MotionNotify(40,10),
ButtonRelease(40,10) ends with the pan offset still (0, 0), not
(40 - 10, 10 - 10) = (30, 0).  And from the Idle state `main` enters the loop
with, the drag ButtonPress(10,10), MotionNotify(40,30), ButtonRelease(40,30)
does not reach its end: the motion calls `render(1)` before any Expose has
assigned `geometry`. -/
theorem C3_counterexample :
    (sample_state.drag_state = 0
      ∧ ∃ s', (event_loop sample_args sample_state
          [button_press 10 10, motion_notify 40 10, button_release 40 10]).result = .ok s'
        ∧ (s'.x, s'.y) = (0, 0) ∧ (s'.x, s'.y) ≠ (40 - 10, 10 - 10))
    ∧ (sample_entry.drag_state = 0
      ∧ (event_loop sample_args sample_entry
          [button_press 10 10, motion_notify 40 30, button_release 40 30]).result
        = .undefined) :=
  ⟨⟨rfl, _, rfl, by decide, by decide⟩, rfl, by decide⟩

/-- C3, amended: a drag ButtonPress(a), MotionNotify.., MotionNotify(m),
ButtonRelease started in an Idle state whose geometry has been fetched by an
Expose is handled to the end and leaves the controller Idle; the pan offset at
the end is `m - a` in both axes when `m - a` differs in both axes from the pan
offset held just before that last MotionNotify, and is that earlier pan offset
otherwise; in every case it is the starting offset or `m' - a` for one of the
motions `m'` of the drag. -/
theorem C3_drag_final_offset (a : Args) (s : ViewerState) (g : Geometry) (ax ay : Int)
    (ms : List (Int × Int)) (mx my rx ry : Int) (idle : s.drag_state = 0)
    (fetched : s.geometry = some g) :
    ∃ s₁ s₂,
      (event_loop a s (button_press ax ay :: ms.map fun m => motion_notify m.1 m.2)).result
        = .ok s₁
      ∧ (event_loop a s (button_press ax ay :: ((ms.map fun m => motion_notify m.1 m.2)
          ++ [motion_notify mx my, button_release rx ry]))).result = .ok s₂
      ∧ s₂.drag_state = 0
      ∧ (s₂.x, s₂.y) =
          (if s₁.x ≠ mx - ax ∧ s₁.y ≠ my - ay then (mx - ax, my - ay) else (s₁.x, s₁.y))
      ∧ ((s₂.x, s₂.y) = (s.x, s.y)
          ∨ ∃ m ∈ ms ++ [(mx, my)], (s₂.x, s₂.y) = (m.1 - ax, m.2 - ay)) := by
  obtain ⟨s₁, r, d, hx, hy, f₁, h⟩ := motions_keep_drag a ax ay g ms
    { s with origin_x := ax, origin_y := ay, drag_state := 1 } rfl rfl rfl fetched
  have r₁ : (event_loop a s
      (button_press ax ay :: ms.map fun m => motion_notify m.1 m.2)).result = .ok s₁ := by
    rw [event_loop, handle_press a s (button_press ax ay) rfl, bind_ok]
    exact r
  have split : button_press ax ay :: ((ms.map fun m => motion_notify m.1 m.2)
      ++ [motion_notify mx my, button_release rx ry])
      = (button_press ax ay :: ms.map fun m => motion_notify m.1 m.2)
        ++ [motion_notify mx my, button_release rx ry] := rfl
  refine ⟨s₁, ?_⟩
  rw [split, event_loop_append]
  rcases hr : event_loop a s (button_press ax ay :: ms.map fun m => motion_notify m.1 m.2)
    with ⟨t, res⟩
  rw [hr] at r₁
  simp only at r₁
  subst r₁
  rw [hr, bind_ok, event_loop]
  by_cases gate : s₁.x ≠ mx - ax ∧ s₁.y ≠ my - ay
  · rw [handle_motion_draw a s₁ (motion_notify mx my) g rfl
        ⟨d, by rw [hx]; exact gate.1, by rw [hy]; exact gate.2⟩ f₁, bind_ok, event_loop,
      handle_release a _ (button_release rx ry) rfl, bind_ok, event_loop, if_pos gate]
    refine ⟨_, rfl, rfl, rfl, ?_, Or.inr ⟨(mx, my), by simp, ?_⟩⟩
    · show ((motion_notify mx my).event_x - s₁.origin_x,
        (motion_notify mx my).event_y - s₁.origin_y) = (mx - ax, my - ay)
      rw [hx, hy]; rfl
    · show ((motion_notify mx my).event_x - s₁.origin_x,
        (motion_notify mx my).event_y - s₁.origin_y) = (mx - ax, my - ay)
      rw [hx, hy]; rfl
  · rw [handle_motion_skip a s₁ (motion_notify mx my) rfl
        (by rw [hx, hy]; exact fun c => gate c.2), bind_ok, event_loop,
      handle_release a _ (button_release rx ry) rfl, bind_ok, event_loop, if_neg gate]
    refine ⟨_, rfl, rfl, rfl, rfl, ?_⟩
    rcases h with h | ⟨m, hm, h⟩
    · exact Or.inl h
    · exact Or.inr ⟨m, List.mem_append_left _ hm, h⟩

theorem C3_drag_final_offset_witness :
    sample_state.drag_state = 0
    ∧ sample_state.geometry = some ⟨150, 150⟩
    ∧ ∃ s₁ s₂,
      (event_loop sample_args sample_state (button_press 10 10
        :: [(40, 30)].map fun m => motion_notify m.1 m.2)).result = .ok s₁
      ∧ (event_loop sample_args sample_state (button_press 10 10
        :: (([(40, 30)].map fun m => motion_notify m.1 m.2)
          ++ [motion_notify 50 30, button_release 50 30]))).result = .ok s₂
      ∧ s₂.drag_state = 0
      ∧ (s₂.x, s₂.y) =
          (if s₁.x ≠ 50 - 10 ∧ s₁.y ≠ 30 - 10 then (50 - 10, 30 - 10) else (s₁.x, s₁.y))
      ∧ ((s₂.x, s₂.y) = (sample_state.x, sample_state.y)
          ∨ ∃ m ∈ [(40, 30)] ++ [((50 : Int), (30 : Int))],
              (s₂.x, s₂.y) = (m.1 - 10, m.2 - 10)) :=
  ⟨rfl, rfl,
    C3_drag_final_offset sample_args sample_state ⟨150, 150⟩ 10 10 [(40, 30)] 50 30 50 30
      rfl rfl⟩

/-! ## Events that change nothing -/

theorem skip_event (a : Args) (e : xcb_generic_event_t) (t : List Effect)
    (silent : ∀ eff ∈ t, is_request eff = false)
    (h : ∀ s, handle_event a s e = ⟨t, .ok s⟩)
    (s₀ : ViewerState) (before after : List xcb_generic_event_t) :
    (event_loop a s₀ (before ++ e :: after)).result = (event_loop a s₀ (before ++ after)).result
    ∧ (event_loop a s₀ (before ++ e :: after)).trace.filter is_request
      = (event_loop a s₀ (before ++ after)).trace.filter is_request := by
  rw [event_loop_append, event_loop_append]
  rcases event_loop a s₀ before with ⟨tb, (s | n | _ | _)⟩
  · have ft : t.filter is_request = [] := by
      rw [List.filter_eq_nil_iff]
      intro x hx
      simp [silent x hx]
    simp [event_loop, h, Run.bind, ft]
  · simp [Run.bind]
  · simp [Run.bind]
  · simp [Run.bind]

/-- C10: a protocol-error event (response type 0) or a KeyPress with a code other
than 65 is handled without touching the state (pan offset, anchor, drag flag,
file index, decode session, surface) and without a clear or a copy, and the
loop goes on: the events after it are handled as they would be without it, so
the run ends the same way and sends the display server the same requests. -/
theorem C10_ignored_events (a : Args) (e : xcb_generic_event_t)
    (h : e.response_type % 128 = 0 ∨ (e.response_type % 128 = XCB_KEY_PRESS ∧ e.detail ≠ 65)) :
    ∃ t, (∀ eff ∈ t, is_redraw eff = false)
      ∧ (∀ s, handle_event a s e = ⟨t, .ok s⟩)
      ∧ (∀ s rest, event_loop a s (e :: rest)
            = ⟨t ++ (event_loop a s rest).trace, (event_loop a s rest).result⟩)
      ∧ ∀ s₀ before after,
          (event_loop a s₀ (before ++ e :: after)).result
            = (event_loop a s₀ (before ++ after)).result
          ∧ (event_loop a s₀ (before ++ e :: after)).trace.filter is_request
            = (event_loop a s₀ (before ++ after)).trace.filter is_request := by
  rcases h with h | ⟨h, d⟩
  · refine ⟨[.stderr .xcb_error, .flush], by simp [is_redraw],
      fun s => handle_error a s e h, ?_, ?_⟩
    · intro s rest
      simp [event_loop, handle_error a s e h, Run.bind]
    · exact skip_event a e _ (by simp [is_request]) (fun s => handle_error a s e h)
  · refine ⟨[.stderr (.key e.detail), .flush], by simp [is_redraw],
      fun s => handle_key_other a s e h d, ?_, ?_⟩
    · intro s rest
      simp [event_loop, handle_key_other a s e h d, Run.bind]
    · exact skip_event a e _ (by simp [is_request]) (fun s => handle_key_other a s e h d)

theorem C10_ignored_events_witness :
    ((key_press 38).response_type % 128 = 0
      ∨ ((key_press 38).response_type % 128 = XCB_KEY_PRESS ∧ (key_press 38).detail ≠ 65))
    ∧ ∃ t, (∀ eff ∈ t, is_redraw eff = false)
      ∧ (∀ s, handle_event sample_args s (key_press 38) = ⟨t, .ok s⟩) :=
  ⟨Or.inr ⟨rfl, by decide⟩,
    match C10_ignored_events sample_args (key_press 38) (Or.inr ⟨rfl, by decide⟩) with
    | ⟨t, h₁, h₂, _⟩ => ⟨t, h₁, h₂⟩⟩

/-! ## Opening a file that cannot be decoded -/

theorem open_image_fails (file : MediaFile)
    (h : file.open_ret < 0
      ∨ (¬ file.open_ret < 0 ∧ file.stream_info_ret = 0 ∧ file.best_stream_ret < 0)) :
    open_image file = ⟨[.avformat_open_input, .stderr .fatal], .exit 1⟩ := by
  rcases h with h | ⟨h₁, h₂, h₃⟩
  · simp [open_image, bind, Run.bind, emit, eaprintf, h]
  · simp [open_image, bind, Run.bind, emit, eaprintf, c_assert, h₁, h₂, h₃]

/-- C7: when the container of the current file cannot be opened, or it opens (and
its stream information is read) but `av_find_best_stream` returns a negative
code, `load_image` ends the process with `exit(1)`, having issued neither
`xcb_create_pixmap` nor `xcb_create_gc`. -/
theorem C7_open_failure_exits (a : Args) (s : ViewerState)
    (h : (a.argv s.image_index).open_ret < 0
      ∨ (¬ (a.argv s.image_index).open_ret < 0
          ∧ (a.argv s.image_index).stream_info_ret = 0
          ∧ (a.argv s.image_index).best_stream_ret < 0)) :
    (load_image a s).result = .exit 1
    ∧ (∀ eff ∈ (load_image a s).trace, creates_surface eff = false)
    ∧ (open_image (a.argv s.image_index)).result = .exit 1 := by
  have o := open_image_fails _ h
  have l : load_image a s = ⟨[.avformat_open_input, .stderr .fatal], .exit 1⟩ := by
    simp [load_image, bind, Run.bind, o]
  rw [l, o]
  exact ⟨rfl, by simp [creates_surface], rfl⟩

theorem C7_open_failure_exits_witness :
    ((sample_bad_args.argv (boot 7).image_index).open_ret < 0
      ∨ (¬ (sample_bad_args.argv (boot 7).image_index).open_ret < 0
          ∧ (sample_bad_args.argv (boot 7).image_index).stream_info_ret = 0
          ∧ (sample_bad_args.argv (boot 7).image_index).best_stream_ret < 0))
    ∧ (load_image sample_bad_args (boot 7)).result = .exit 1
    ∧ (∀ eff ∈ (load_image sample_bad_args (boot 7)).trace,
        creates_surface eff = false)
    ∧ (open_image (sample_bad_args.argv (boot 7).image_index)).result = .exit 1 :=
  ⟨Or.inr ⟨by decide, by decide, by decide⟩,
    C7_open_failure_exits sample_bad_args (boot 7)
      (Or.inr ⟨by decide, by decide, by decide⟩)⟩

/-! ## No path of `main` closes an input -/

theorem never_closes_bind {α β : Type} (m : Run α) (f : α → Run β)
    (hm : never_closes m) (hf : ∀ a, never_closes (f a)) : never_closes (m.bind f) := by
  rcases m with ⟨t, (a | n | _ | _)⟩
  · have := hf a
    simp only [never_closes, Run.bind, List.mem_append, not_or] at *
    exact ⟨hm, this⟩
  · simpa [never_closes, Run.bind] using hm
  · simpa [never_closes, Run.bind] using hm
  · simpa [never_closes, Run.bind] using hm

theorem never_closes_pure {α : Type} (a : α) : never_closes (pure a : Run α) := by
  simp [never_closes, pure_eq]

theorem never_closes_emit (e : Effect) (h : e ≠ .avformat_close_input) :
    never_closes (emit e) := by
  simpa [never_closes, emit, eq_comm] using h

theorem never_closes_eaprintf (err : Int) : never_closes (eaprintf err) := by
  unfold eaprintf never_closes
  split <;> simp

theorem never_closes_enprintf (err : Int) : never_closes (enprintf err) := by
  unfold enprintf never_closes
  split <;> simp

theorem never_closes_assert (c : Bool) : never_closes (c_assert c) := by
  unfold c_assert never_closes
  split <;> simp

theorem never_closes_open_image (file : MediaFile) : never_closes (open_image file) := by
  simp only [open_image, bind_eq]
  repeat (first
    | exact never_closes_pure _
    | exact never_closes_eaprintf _
    | exact never_closes_assert _
    | exact never_closes_emit _ (by simp)
    | apply never_closes_bind
    | intro _)

theorem never_closes_next_frame_loop (img : aiv_image_t) (packets : List Packet) :
    never_closes (next_frame_loop img packets) := by
  induction packets with
  | nil => exact never_closes_pure _
  | cons p rest ih =>
    unfold next_frame_loop
    split
    · exact ih
    · apply never_closes_bind _ _ (never_closes_eaprintf _)
      intro _
      simp only
      split
      · exact ih
      · repeat (first
          | exact never_closes_pure _
          | exact never_closes_eaprintf _
          | exact never_closes_assert _
          | apply never_closes_bind
          | intro _)

theorem never_closes_load_image (a : Args) (s : ViewerState) :
    never_closes (load_image a s) := by
  simp only [load_image, bind_eq]
  repeat (first
    | exact never_closes_pure _
    | exact never_closes_enprintf _
    | exact never_closes_open_image _
    | exact never_closes_emit _ (by simp)
    | apply never_closes_bind
    | intro _)

theorem never_closes_load_frame (s : ViewerState) : never_closes (load_frame s) := by
  simp only [load_frame, bind_eq]
  repeat (first
    | exact never_closes_pure _
    | exact never_closes_enprintf _
    | exact never_closes_next_frame_loop _ _
    | exact never_closes_emit _ (by simp)
    | apply never_closes_bind
    | intro _)

theorem never_closes_render (clear : Nat) (s : ViewerState) : never_closes (render clear s) := by
  unfold render
  split <;> simp [never_closes, bind, Run.bind, emit]

theorem never_closes_dispatch (a : Args) (s : ViewerState) (e : xcb_generic_event_t) :
    never_closes (dispatch a s e) := by
  simp only [dispatch, bind_eq]
  repeat' split
  all_goals
    repeat (first
      | exact never_closes_pure _
      | exact never_closes_render _ _
      | exact never_closes_load_image _ _
      | exact never_closes_load_frame _
      | exact never_closes_emit _ (by simp)
      | apply never_closes_bind
      | intro _)

theorem never_closes_event_loop (a : Args) (events : List xcb_generic_event_t)
    (s : ViewerState) : never_closes (event_loop a s events) := by
  induction events generalizing s with
  | nil => exact never_closes_pure _
  | cons e rest ih =>
    unfold event_loop handle_event
    simp only [bind_eq]
    repeat (first
      | exact never_closes_pure _
      | exact never_closes_dispatch _ _ _
      | exact ih _
      | exact never_closes_emit _ (by simp)
      | apply never_closes_bind
      | intro _)

theorem never_closes_main (a : Args) (first_id : Nat) (errors_ret : Int)
    (events : List xcb_generic_event_t) :
    never_closes (main a first_id errors_ret events) := by
  simp only [main, main_init, bind_eq]
  repeat (first
    | exact never_closes_pure _
    | exact never_closes_enprintf _
    | exact never_closes_load_image _ _
    | exact never_closes_load_frame _
    | exact never_closes_event_loop _ _ _
    | apply never_closes_bind
    | intro _)

/-! ## Findings -/

/-- C9: with the geometry fetched, `render` issues, in this order, the geometry
line on stderr, one `xcb_clear_area` over the cached window geometry whose
`exposures` argument is the flag, and one `xcb_copy_area` of the image-sized
region from (0,0) of the pixmap to the pan offset in the window; it returns no
new state.  With the flag 0, as on every Expose, the clear request is issued
all the same. -/
theorem C9_render_clears_unconditionally (s : ViewerState) (g : Geometry) (clear : Nat) :
    render clear { s with geometry := some g } =
      ⟨[.stderr (.render_geometry g.width g.height),
        .clear_area clear s.window 0 0 g.width g.height,
        .copy_area s.pixmap s.window s.gc 0 0 s.x s.y s.aiv_image.width s.aiv_image.height],
       .ok ()⟩
    ∧ (∃ eff ∈ (render 0 { s with geometry := some g }).trace, eff
        = .clear_area 0 s.window 0 0 g.width g.height)
    ∧ (∃ eff ∈ (handle_event sample_args s (expose 150 150)).trace, eff
        = .clear_area 0 s.window 0 0 150 150) := by
  refine ⟨rfl, ⟨_, ?_, rfl⟩, ⟨_, ?_, rfl⟩⟩
  · simp [render, bind, Run.bind, emit]
  · rw [handle_expose sample_args s (expose 150 150) ⟨150, 150⟩ rfl rfl]
    simp

/-- C6: `main` never closes a decode session, whatever the arguments and events.
On `aiv a b` with an Expose and then one press of the space key the run
returns 0 having opened two inputs and closed none, so two sessions are open
when the loop ends; `free_image`, which would issue the close, is not called. -/
theorem C6_sessions_never_closed :
    (∀ a first_id errors_ret events, never_closes (main a first_id errors_ret events))
    ∧ (main sample_args 7 0 [expose 150 150, key_press 65]).result = .ok 0
    ∧ (main sample_args 7 0 [expose 150 150, key_press 65]).trace.count
        .avformat_open_input = 2
    ∧ (main sample_args 7 0 [expose 150 150, key_press 65]).trace.count
        .avformat_close_input = 0
    ∧ (free_image sample_session_done).trace = [.avformat_close_input] :=
  ⟨never_closes_main, by decide, by decide, by decide, by decide⟩

/-- C2: on an exhausted container `next_frame` returns 0 and leaves the session,
its output buffer included, as it was; 0 is also what it returns after
decoding and packing a frame, and `load_frame` goes on to upload the
unwritten buffer instead of stopping. -/
theorem C2_exhausted_returns_success_code :
    (∀ stream_index width height buf buf_size,
        next_frame ⟨[], stream_index, width, height, buf, buf_size⟩
          = ⟨[], .ok (0, ⟨[], stream_index, width, height, buf, buf_size⟩)⟩)
    ∧ next_frame sample_session = ⟨[], .ok (0, sample_session_done)⟩
    ∧ ∀ s : ViewerState,
        load_frame { s with aiv_image := { s.aiv_image with packets := [] } }
          = ⟨[.put_image s.pixmap s.gc s.aiv_image.width s.aiv_image.height
                s.aiv_image.buf_size s.aiv_image.buf],
              .ok { s with aiv_image := { s.aiv_image with packets := [] } }⟩ := by
  refine ⟨fun _ _ _ _ _ => rfl, by decide, ?_⟩
  intro s
  simp [load_frame, next_frame, next_frame_loop, bind, Run.bind, emit, enprintf, pure]

end Aiv
